import Mathlib

/-!
Verification of the product-documenter repository core logic:
the cost guard (`scripts/cost_guard.py`), the learning system
(`scripts/learning_system.py`), the review reconciliation endpoint
(`scripts/api_server.py`), the activity/cost ledger
(`scripts/activity_tracker.py`, `scripts/document_generator.py`) and the
review workflow (`scripts/review_workflow.py`), shallowly embedded in Lean.
-/

namespace ProductDocumenter

/-! ## Python string primitives

Character-level models of the Python `str` operations the scripts use.
They operate on `String.data` so every theorem below can be settled by
kernel evaluation.
-/

/-- Model of Python `s.startswith(pre)`. -/
def pyStartsWith (s pre : String) : Bool :=
  pre.data.isPrefixOf s.data

/-- Model of Python slicing `s[n:]` (character based). -/
def pyDrop (s : String) (n : Nat) : String :=
  String.mk (s.data.drop n)

/-- Model of Python `s.split(sep)` for a one-character separator:
splits on every occurrence, keeping empty pieces; `"".split(c) == [""]`. -/
def pySplitChar (s : String) (sep : Char) : List String :=
  (s.data.splitOn sep).map String.mk

/-- Model of Python `sep.join(parts)`. -/
def pyJoin (sep : String) (parts : List String) : String :=
  String.mk (List.intercalate sep.data (parts.map String.data))

/-- The character set Python `str.strip()` removes from both ends. -/
def pyIsSpace (c : Char) : Bool :=
  c = ' ' || c = '\t' || c = '\n' || c = '\r' || c = '\x0b' || c = '\x0c'

/-- Model of Python `s.strip()`: remove leading and trailing whitespace. -/
def pyStrip (s : String) : String :=
  String.mk (((s.data.dropWhile pyIsSpace).reverse.dropWhile pyIsSpace).reverse)

/-- One fuel-indexed step list for Python `s.replace(pat, rep)` with a
non-empty pattern: leftmost, non-overlapping replacement. -/
def pyReplaceAux (pat rep : List Char) : Nat → List Char → List Char
  | 0, s => s
  | _ + 1, [] => []
  | fuel + 1, c :: cs =>
    if pat.isPrefixOf (c :: cs) then
      rep ++ pyReplaceAux pat rep fuel ((c :: cs).drop pat.length)
    else
      c :: pyReplaceAux pat rep fuel cs

/-- Model of Python `s.replace(pat, rep)` for non-empty `pat`. -/
def pyReplace (s pat rep : String) : String :=
  String.mk (pyReplaceAux pat.data rep.data s.data.length s.data)

/-- Model of Python `needle in haystack` (substring containment). -/
def pyContainsAux (needle : List Char) : List Char → Bool
  | [] => needle.isPrefixOf []
  | c :: cs => needle.isPrefixOf (c :: cs) || pyContainsAux needle cs

/-- Model of Python substring containment `needle in haystack`. -/
def pyContains (haystack needle : String) : Bool :=
  pyContainsAux needle.data haystack.data

/-- ASCII lower-casing of one character, as SQLite `LIKE` applies to the
default (ASCII, case-insensitive) collation. -/
def asciiLower (c : Char) : Char :=
  if 'A' ≤ c && c ≤ 'Z' then Char.ofNat (c.toNat + 32) else c

/-- Fuel-indexed matcher for SQLite `LIKE`: `%` matches any run of
characters, `_` matches exactly one character, other characters match
ASCII case-insensitively.  Fuel `|pattern| + |s| + 1` always suffices
because every step shortens the pattern or the subject. -/
def likeMatchAux : Nat → List Char → List Char → Bool
  | 0, _, _ => false
  | _ + 1, [], s => s.isEmpty
  | fuel + 1, '%' :: ps, s =>
    likeMatchAux fuel ps s ||
      (match s with
       | [] => false
       | _ :: s2 => likeMatchAux fuel ('%' :: ps) s2)
  | fuel + 1, '_' :: ps, s =>
    match s with
    | [] => false
    | _ :: s2 => likeMatchAux fuel ps s2
  | fuel + 1, p :: ps, s =>
    match s with
    | [] => false
    | c :: s2 => (asciiLower p = asciiLower c) && likeMatchAux fuel ps s2

/-- Model of the SQLite expression `s LIKE pattern` (default collation). -/
def sqlLike (s pattern : String) : Bool :=
  likeMatchAux (pattern.data.length + s.data.length + 1) pattern.data s.data

/-- A nullable column `col LIKE pattern`: a SQL `NULL` never matches. -/
def sqlLikeOpt (col : Option String) (pattern : String) : Bool :=
  match col with
  | none => false
  | some s => sqlLike s pattern

/-- Python truthiness of a nullable integer: `None` and `0` are falsy. -/
def pyTruthyNat : Option Nat → Bool
  | none => false
  | some n => n ≠ 0

/-! ## Cost guard (`scripts/cost_guard.py`)

`check_budget` classifies budget utilization into alert tiers and, in the
CRITICAL branch, calls `update_config(force_local=True)`.  The module
imports only `os`, `sys`, `SmartDocumentGenerator`, `smtplib`, `MIMEText`
and `json`; the name `datetime` used by `update_config` is never bound,
so that call raises `NameError` before `scripts/config.json` is written.
The monthly spend, remaining budget and the `MONTHLY_BUDGET` environment
value are inputs read from collaborators and are taken here as parameters.
-/

/-- Python exceptions the embedded cost-guard code can raise. -/
inductive PyExn where
  | nameError (name : String)
  | zeroDivisionError
deriving DecidableEq, Repr

/-- The names bound at module level in `cost_guard.py` (its imports plus
its own functions).  `datetime` is absent: `cost_guard.py` has no
`datetime` import. -/
def costGuardModuleNames : List String :=
  ["os", "sys", "SmartDocumentGenerator", "smtplib", "MIMEText", "json",
   "check_budget", "update_config", "send_alerts"]

/-- Resolution of a global name inside `cost_guard.py`: an unbound name
raises `NameError`, as Python does. -/
def costGuardResolve (n : String) : Except PyExn Unit :=
  if n ∈ costGuardModuleNames then .ok () else .error (.nameError n)

/-- The persisted configuration file `scripts/config.json`
(`BudgetState`): `none` while the file has never been written. -/
structure ConfigJson where
  force_local : Bool
deriving DecidableEq, Repr

/-- The configuration store; the cost guard is its only writer. -/
abbrev ConfigStore := Option ConfigJson

/-- `update_config` from `cost_guard.py`: builds the config dict — whose
`updated` entry evaluates `datetime.now()`, an unbound name in this
module — and only then would write `scripts/config.json`.  The name
lookup fails first, so the store is never written. -/
def update_config (_store : ConfigStore) (force_local : Bool) :
    Except PyExn ConfigStore :=
  match costGuardResolve "datetime" with
  | .error e => .error e
  | .ok _ => .ok (some { force_local := force_local })

/-- One alert record appended by `check_budget`; the `message` field also
carries the formatted utilization percentage, which no claim inspects and
which is not modelled. -/
structure Alert where
  level : String
  action : String
deriving DecidableEq, Repr

/-- The dictionary `check_budget` returns on the non-raising paths. -/
structure CheckResult where
  monthly_spent : ℚ
  remaining : ℚ
  utilization : ℚ
  alerts : List Alert
deriving DecidableEq, Repr

/-- Observable outcome of one `check_budget` run: the alert records
appended before any exception, the returned value or the exception that
escaped, and the final state of the configuration store. -/
structure BudgetCheckOutcome where
  alerts : List Alert
  outcome : Except PyExn CheckResult
  store : ConfigStore
deriving Repr

/-- `check_budget` from `cost_guard.py`, lines 14-59.  Division by a zero
budget raises `ZeroDivisionError`; in the `utilization >= 90` branch the
CRITICAL alert is appended and then `update_config(force_local=True)` is
called, whose `NameError` escapes; the lower branches only append their
alert.  `send_alerts` only prints (its SMTP send is commented out), so it
has no modelled effect. -/
def check_budget (monthly_spent remaining budget : ℚ) (store : ConfigStore) :
    BudgetCheckOutcome :=
  if budget = 0 then
    { alerts := [], outcome := .error .zeroDivisionError, store := store }
  else
    let utilization := monthly_spent / budget * 100
    if utilization ≥ 90 then
      let alerts := [⟨"CRITICAL", "All new requests will use local models"⟩]
      match update_config store true with
      | .error e => { alerts := alerts, outcome := .error e, store := store }
      | .ok store2 =>
        { alerts := alerts
          outcome := .ok ⟨monthly_spent, remaining, utilization, alerts⟩
          store := store2 }
    else if utilization ≥ 80 then
      let alerts :=
        [⟨"WARNING", "Consider reviewing cost optimization recommendations"⟩]
      { alerts := alerts
        outcome := .ok ⟨monthly_spent, remaining, utilization, alerts⟩
        store := store }
    else if utilization ≥ 50 then
      let alerts := [⟨"INFO", "Continue monitoring"⟩]
      { alerts := alerts
        outcome := .ok ⟨monthly_spent, remaining, utilization, alerts⟩
        store := store }
    else
      { alerts := []
        outcome := .ok ⟨monthly_spent, remaining, utilization, []⟩
        store := store }

/-- The tier a `check_budget` run classifies the spend into: the level of
the alert its branch appends, `OK` when no alert is appended. -/
def reportedTier (o : BudgetCheckOutcome) : String :=
  match o.alerts with
  | [] => "OK"
  | a :: _ => a.level

/-- `update_config` always raises `NameError: datetime`, because
`cost_guard.py` never imports `datetime`. -/
theorem update_config_raises (store : ConfigStore) (fl : Bool) :
    update_config store fl = .error (.nameError "datetime") := rfl

/-- For a non-zero budget, the tier `check_budget` classifies into is the
nested-threshold choice over `utilization = monthly_spent / budget * 100`. -/
theorem check_budget_reportedTier (ms r b : ℚ) (store : ConfigStore)
    (hb : b ≠ 0) :
    reportedTier (check_budget ms r b store) =
      (if 90 ≤ ms / b * 100 then "CRITICAL"
       else if 80 ≤ ms / b * 100 then "WARNING"
       else if 50 ≤ ms / b * 100 then "INFO"
       else "OK") := by
  simp only [check_budget, if_neg hb]
  split_ifs <;> rfl

/-- C1 (code bug): at `monthlySpend = 45`, `budget = 50` (utilization
exactly 90%), `check_budget` takes the CRITICAL branch, but the call
`update_config(force_local=True)` raises `NameError` — `cost_guard.py`
never imports `datetime` — so the run aborts and `BudgetState.forceLocal`
is never persisted: the configuration store is left untouched. -/
theorem claim_C1_critical_crashes_before_persisting :
    check_budget 45 5 50 none =
      { alerts := [⟨"CRITICAL", "All new requests will use local models"⟩]
        outcome := .error (.nameError "datetime")
        store := none } := by
  simp only [check_budget]
  rw [if_neg (by norm_num : ¬(50 : ℚ) = 0),
    if_pos (by norm_num : (90 : ℚ) ≤ 45 / 50 * 100),
    update_config_raises]

/-- C2 (confirmed): for every `(monthlySpend, budget)` with `budget > 0`,
the tier `check_budget` classifies into, over
`utilization = monthlySpend / budget * 100`, is CRITICAL iff
`utilization >= 90`, WARNING iff `80 <= utilization < 90`, INFO iff
`50 <= utilization < 80`, and OK otherwise; in particular utilization
exactly 80 yields WARNING, not INFO. -/
theorem claim_C2_tier_classification (ms r b : ℚ) (store : ConfigStore)
    (hb : 0 < b) :
    (reportedTier (check_budget ms r b store) = "CRITICAL" ↔
      90 ≤ ms / b * 100) ∧
    (reportedTier (check_budget ms r b store) = "WARNING" ↔
      80 ≤ ms / b * 100 ∧ ms / b * 100 < 90) ∧
    (reportedTier (check_budget ms r b store) = "INFO" ↔
      50 ≤ ms / b * 100 ∧ ms / b * 100 < 80) ∧
    (reportedTier (check_budget ms r b store) = "OK" ↔
      ms / b * 100 < 50) := by
  rw [check_budget_reportedTier ms r b store (ne_of_gt hb)]
  split_ifs with h90 h80 h50
  · exact ⟨iff_of_true rfl h90,
      iff_of_false (by decide) (fun h => by linarith [h.1, h.2]),
      iff_of_false (by decide) (fun h => by linarith [h.1, h.2]),
      iff_of_false (by decide) (fun h => by linarith)⟩
  · exact ⟨iff_of_false (by decide) h90,
      iff_of_true rfl ⟨h80, by linarith⟩,
      iff_of_false (by decide) (fun h => by linarith [h.1, h.2]),
      iff_of_false (by decide) (fun h => by linarith)⟩
  · exact ⟨iff_of_false (by decide) (fun h => by linarith),
      iff_of_false (by decide) (fun h => h90 (by linarith [h.1])),
      iff_of_true rfl ⟨h50, by linarith⟩,
      iff_of_false (by decide) (fun h => by linarith)⟩
  · exact ⟨iff_of_false (by decide) (fun h => by linarith),
      iff_of_false (by decide) (fun h => h90 (by linarith [h.1, h.2])),
      iff_of_false (by decide) (fun h => h80 (by linarith [h.1, h.2])),
      iff_of_true rfl (by linarith)⟩

/-- Witness for C2 at `monthlySpend = 80`, `budget = 100`: utilization is
exactly 80 and the reported tier is WARNING. -/
theorem claim_C2_tier_classification_witness :
    (0 : ℚ) < 100 ∧
      (reportedTier (check_budget 80 20 100 none) = "WARNING" ↔
        80 ≤ (80 : ℚ) / 100 * 100 ∧ (80 : ℚ) / 100 * 100 < 90) :=
  ⟨by norm_num, (claim_C2_tier_classification 80 20 100 none (by norm_num)).2.1⟩

/-! ## Ledger data model (`scripts/activity_tracker.py` schema)

Rows of the `activities`, `documents` and `ai_costs` tables, with the
column defaults the `CREATE TABLE` statements declare.  `Option` fields
model nullable columns.  The `next_*` counters model SQLite
`AUTOINCREMENT` row ids. -/

/-- One row of `activities`. -/
structure Activity where
  id : Nat
  activity_type : String
  source : String
  details : String
  ai_tokens_used : Nat
  ai_cost : ℚ
  human_time_seconds : Nat
  status : String
deriving DecidableEq, Repr

/-- One row of `documents`.  `reviewed_at` records whether the column has
been set (its timestamp value is never read by the modelled code). -/
structure Document where
  id : Nat
  activity_id : Option Nat
  doc_type : String
  draft_content : String
  final_content : Option String
  filename : Option String
  review_filepath : Option String
  reviewed_at : Bool
  review_time_seconds : Option Nat
  quality_score : Option ℚ
deriving DecidableEq, Repr

/-- One row of `ai_costs`. -/
structure CostRecord where
  id : Nat
  provider : String
  model : String
  tokens_used : Nat
  cost : ℚ
  activity_id : Nat
deriving DecidableEq, Repr

/-- The `documenter.db` ledger. -/
structure Db where
  activities : List Activity
  documents : List Document
  ai_costs : List CostRecord
  next_activity_id : Nat
  next_document_id : Nat
  next_cost_id : Nat
deriving DecidableEq, Repr

/-- `ActivityTracker.log_activity` (`activity_tracker.py` lines 69-83):
inserts a new activity with the schema defaults and returns its row id. -/
def log_activity (db : Db) (activity_type source details : String) :
    Nat × Db :=
  let aid := db.next_activity_id
  (aid,
   { db with
      activities := db.activities ++
        [{ id := aid, activity_type, source, details,
           ai_tokens_used := 0, ai_cost := 0, human_time_seconds := 0,
           status := "pending" }]
      next_activity_id := aid + 1 })

/-- `EnhancedDocumentGenerator.log_cost_to_db`
(`document_generator.py` lines 215-249): appends one `ai_costs` row, then
`UPDATE activities SET ai_tokens_used = ?, ai_cost = ?,
status = 'generated' WHERE id = ?` — the cached totals are overwritten
with this call's values, not accumulated. -/
def log_cost_to_db (db : Db) (activity_id : Nat) (provider model : String)
    (tokens : Nat) (cost : ℚ) : Db :=
  let row : CostRecord :=
    { id := db.next_cost_id, provider, model, tokens_used := tokens, cost,
      activity_id }
  { db with
      ai_costs := db.ai_costs ++ [row]
      next_cost_id := db.next_cost_id + 1
      activities := db.activities.map fun a =>
        if a.id = activity_id then
          { a with ai_tokens_used := tokens, ai_cost := cost,
                   status := "generated" }
        else a }

/-- `ActivityTracker.update_activity_cost` (`activity_tracker.py` lines
85-97): `UPDATE activities SET ai_tokens_used = ?, ai_cost = ?,
status = 'generated' WHERE id = ?`.  It inserts no `ai_costs` row; its
`provider` parameter is unused by the SQL. -/
def update_activity_cost (db : Db) (activity_id : Nat) (ai_tokens : Nat)
    (ai_cost : ℚ) (_provider : String) : Db :=
  { db with
      activities := db.activities.map fun a =>
        if a.id = activity_id then
          { a with ai_tokens_used := ai_tokens, ai_cost := ai_cost,
                   status := "generated" }
        else a }

/-- `ActivityTracker.save_document` (`activity_tracker.py` lines 113-148)
on the success path with an explicit filename: inserts a `documents` row
and returns its id. -/
def save_document (db : Db) (activity_id : Nat)
    (doc_type draft_content filename : String) : Nat × Db :=
  let did := db.next_document_id
  (did,
   { db with
      documents := db.documents ++
        [{ id := did, activity_id := some activity_id, doc_type,
           draft_content, final_content := none, filename := some filename,
           review_filepath := none, reviewed_at := false,
           review_time_seconds := none, quality_score := none }]
      next_document_id := did + 1 })

/-! ## Review reconciliation (`scripts/api_server.py`, `submit_review`)

The `/submit-review` endpoint reads the submitted file, then reconciles
its basename against the `documents` table (lines 318-411) and always
returns a success JSON (lines 421-426) — the no-match case only prints a
warning.  The file-system part (reading the submission, writing the
reviewed copy) is a collaborator; the submitted basename, the file
content and the reviewed path are parameters here. -/

/-- Lines 328-332: strip a leading `review_` prefix, then a leading
`reviewed_` prefix, from the submitted basename (two sequential `if`
statements, so both can strip). -/
def stripSubmittedName (submitted_filename : String) : String :=
  let s :=
    if pyStartsWith submitted_filename "review_" then
      pyDrop submitted_filename 7
    else submitted_filename
  if pyStartsWith s "reviewed_" then pyDrop s 9 else s

/-- Lines 337-342: the four `LIKE` candidate patterns, in order. -/
def searchPatterns (submitted_filename : String) : List String :=
  let sf := stripSubmittedName submitted_filename
  ["%" ++ sf ++ "%",
   "%" ++ submitted_filename ++ "%",
   "%" ++ pyReplace sf "reviewed_" "" ++ "%",
   "%" ++ pyReplace sf "review_" "" ++ "%"]

/-- The `WHERE filename LIKE ? OR review_filepath LIKE ?` predicate. -/
def docMatches (pattern : String) (d : Document) : Bool :=
  sqlLikeOpt d.filename pattern || sqlLikeOpt d.review_filepath pattern

/-- `ORDER BY id DESC LIMIT 1` over the rows matching one pattern: the
matching document with the highest id, if any. -/
def bestMatch (docs : List Document) (pattern : String) : Option Document :=
  (docs.filter (docMatches pattern)).foldl
    (fun acc d =>
      match acc with
      | none => some d
      | some b => if b.id < d.id then some d else some b)
    none

/-- Lines 344-355: try each candidate pattern in order and stop at the
first one with a match. -/
def reconcileWith (docs : List Document) : List String → Option Document
  | [] => none
  | p :: ps =>
    match bestMatch docs p with
    | some d => some d
    | none => reconcileWith docs ps

/-- The reconciliation matcher: resolve a submitted basename to a
document row, or `none` when every candidate pattern comes up empty. -/
def reconcile (docs : List Document) (submitted_filename : String) :
    Option Document :=
  reconcileWith docs (searchPatterns submitted_filename)

/-- The JSON body and HTTP status `/submit-review` answers with. -/
structure ApiResponse where
  http_status : Nat
  status : String
  error : Option String
  reviewed_path : Option String
  message : String
deriving DecidableEq, Repr

/-- The DB transaction and response of `/submit-review`
(`api_server.py` lines 318-426), given the submitted basename, the file
content read from disk and the reviewed path produced by the workflow
step.  On a match (lines 357-394): set `final_content`, `reviewed_at`,
`review_time_seconds = 300`, `quality_score = 0.8` on every row with the
matched id; if the matched row's `activity_id` is truthy, set
`human_time_seconds = 300`, `status = 'completed'` on that activity; if
`reviewed_path` is truthy, set `review_filepath`.  On no match (lines
396-401): only print.  Either way the endpoint returns HTTP 200 with
`status = "success"` (lines 421-426). -/
def submit_review (db : Db)
    (submitted_filename full_content reviewed_path : String) :
    ApiResponse × Db :=
  let response : ApiResponse :=
    { http_status := 200, status := "success", error := none,
      reviewed_path := some reviewed_path,
      message := "Review submitted successfully" }
  match reconcile db.documents submitted_filename with
  | none => (response, db)
  | some d =>
    let documents := db.documents.map fun doc =>
      if doc.id = d.id then
        { doc with
            final_content := some full_content
            reviewed_at := true
            review_time_seconds := some 300
            quality_score := some (8 / 10 : ℚ) }
      else doc
    let activities :=
      if pyTruthyNat d.activity_id then
        db.activities.map fun a =>
          if some a.id = d.activity_id then
            { a with human_time_seconds := 300, status := "completed" }
          else a
      else db.activities
    let documents :=
      if reviewed_path ≠ "" then
        documents.map fun doc =>
          if doc.id = d.id then { doc with review_filepath := some reviewed_path }
          else doc
      else documents
    (response, { db with documents, activities })

/-- The stored document of the reconciliation scenario in the spec's
testable properties: id 7, filename
`technical_spec_7_20240101_120000.md`. -/
def c5Document : Document :=
  { id := 7, activity_id := some 3, doc_type := "technical_spec",
    draft_content := "draft", final_content := none,
    filename := some "technical_spec_7_20240101_120000.md",
    review_filepath := none, reviewed_at := false,
    review_time_seconds := none, quality_score := none }

/-- The activity row owning `c5Document`. -/
def c5Activity : Activity :=
  { id := 3, activity_type := "documentation_generation", source := "api",
    details := "", ai_tokens_used := 800, ai_cost := 0,
    human_time_seconds := 0, status := "generated" }

/-- A ledger holding only `c5Document` and its activity. -/
def c4Db : Db :=
  { activities := [c5Activity]
    documents := [c5Document]
    ai_costs := []
    next_activity_id := 4, next_document_id := 8, next_cost_id := 1 }

/-- C5 (confirmed): with only the stored document
`{id: 7, filename: "technical_spec_7_20240101_120000.md"}`, submitting a
review named `reviewed_technical_spec_7_20240101_120000.md` strips the
leading `reviewed_` prefix and resolves, via the first candidate
pattern's highest-id match, to document id 7. -/
theorem claim_C5_reviewed_name_resolves_to_id7 :
    stripSubmittedName "reviewed_technical_spec_7_20240101_120000.md" =
      "technical_spec_7_20240101_120000.md" ∧
    (reconcile [c5Document]
        "reviewed_technical_spec_7_20240101_120000.md").map Document.id =
      some 7 := by
  decide

/-- C4 (counterexample): submitting `meeting_notes.md`, which no stored
filename or review filepath matches under any of the four candidate
patterns, does not surface any failure: no `AmbiguousMatchError` exists
in the code, the endpoint answers HTTP 200 with `status = "success"`,
and the ledger is returned unchanged. -/
theorem claim_C4_counterexample_no_match_still_success :
    reconcile c4Db.documents "meeting_notes.md" = none ∧
    submit_review c4Db "meeting_notes.md" "reviewed body"
        "docs/review/reviewed_meeting_notes.md" =
      ({ http_status := 200, status := "success", error := none,
         reviewed_path := some "docs/review/reviewed_meeting_notes.md",
         message := "Review submitted successfully" }, c4Db) := by
  decide

/-- C4 (amended): when every candidate pattern yields no match, the
endpoint leaves the ledger unchanged and still answers HTTP 200 with
`status = "success"` — the failure is only printed, never surfaced; the
review content is preserved at the reviewed path the response carries. -/
theorem claim_C4_no_match_silently_succeeds (db : Db) (sub fc rp : String)
    (h : reconcile db.documents sub = none) :
    submit_review db sub fc rp =
      ({ http_status := 200, status := "success", error := none,
         reviewed_path := some rp,
         message := "Review submitted successfully" }, db) := by
  unfold submit_review
  rw [h]

/-- Witness for the amended C4 on a concrete ledger and submission. -/
theorem claim_C4_no_match_silently_succeeds_witness :
    reconcile c4Db.documents "unrelated.md" = none ∧
    submit_review c4Db "unrelated.md" "body"
        "docs/review/reviewed_unrelated.md" =
      ({ http_status := 200, status := "success", error := none,
         reviewed_path := some "docs/review/reviewed_unrelated.md",
         message := "Review submitted successfully" }, c4Db) :=
  ⟨by decide,
   claim_C4_no_match_silently_succeeds c4Db "unrelated.md" "body"
     "docs/review/reviewed_unrelated.md" (by decide)⟩

/-- C10 (confirmed): whenever a submission reconciles to a document, the
endpoint writes the hard-coded constants — `review_time_seconds = 300`,
`quality_score = 0.8`, the submitted content as `final_content` — to
every document row with the matched id, and, when the matched row has a
truthy `activity_id`, sets that activity's `human_time_seconds = 300`
and `status = 'completed'`; no caller-supplied timing or quality value is
involved. -/
theorem claim_C10_hardcoded_review_constants (db : Db) (sub fc rp : String)
    (d : Document) (hd : reconcile db.documents sub = some d) :
    (∀ doc ∈ (submit_review db sub fc rp).2.documents, doc.id = d.id →
      doc.final_content = some fc ∧ doc.reviewed_at = true ∧
      doc.review_time_seconds = some 300 ∧
      doc.quality_score = some (8 / 10 : ℚ)) ∧
    (∀ aid, d.activity_id = some aid → aid ≠ 0 →
      ∀ a ∈ (submit_review db sub fc rp).2.activities, a.id = aid →
        a.human_time_seconds = 300 ∧ a.status = "completed") := by
  unfold submit_review
  rw [hd]
  dsimp only
  constructor
  · intro doc hdoc hid
    by_cases hrp : rp = ""
    · rw [if_neg (by simp [hrp])] at hdoc
      obtain ⟨x, hx, rfl⟩ := List.mem_map.1 hdoc
      by_cases hxid : x.id = d.id
      · simp [hxid]
      · simp only [if_neg hxid] at hid
        exact absurd hid hxid
    · rw [if_pos (by simp [hrp])] at hdoc
      obtain ⟨y, hy, rfl⟩ := List.mem_map.1 hdoc
      obtain ⟨x, hx, rfl⟩ := List.mem_map.1 hy
      by_cases hxid : x.id = d.id
      · simp [hxid]
      · simp only [if_neg hxid] at hid
        exact absurd hid hxid
  · intro aid haid haid0 a ha hida
    rw [if_pos (by simp [pyTruthyNat, haid, haid0])] at ha
    obtain ⟨x, hx, rfl⟩ := List.mem_map.1 ha
    by_cases hxid : (some x.id : Option Nat) = d.activity_id
    · simp [hxid]
    · rw [if_neg hxid] at hida
      exact absurd (by rw [haid, hida]) hxid

/-- Witness for C10 on the concrete ledger `c4Db` and the reviewed
submission of C5. -/
theorem claim_C10_hardcoded_review_constants_witness :
    reconcile c4Db.documents
        "reviewed_technical_spec_7_20240101_120000.md" = some c5Document ∧
    ((∀ doc ∈ (submit_review c4Db
          "reviewed_technical_spec_7_20240101_120000.md" "new body"
          "docs/review/reviewed_x.md").2.documents, doc.id = c5Document.id →
        doc.final_content = some "new body" ∧ doc.reviewed_at = true ∧
        doc.review_time_seconds = some 300 ∧
        doc.quality_score = some (8 / 10 : ℚ)) ∧
     (∀ aid, c5Document.activity_id = some aid → aid ≠ 0 →
       ∀ a ∈ (submit_review c4Db
           "reviewed_technical_spec_7_20240101_120000.md" "new body"
           "docs/review/reviewed_x.md").2.activities, a.id = aid →
         a.human_time_seconds = 300 ∧ a.status = "completed")) :=
  ⟨by decide,
   claim_C10_hardcoded_review_constants c4Db
     "reviewed_technical_spec_7_20240101_120000.md" "new body"
     "docs/review/reviewed_x.md" c5Document (by decide)⟩

/-! ## Cost-recording operations (C6)

The two writers of the cached `activities.ai_cost` / `ai_tokens_used`
columns: `EnhancedDocumentGenerator.log_cost_to_db` (which also appends
an `ai_costs` row) and `ActivityTracker.update_activity_cost` (which
appends none).  Both `UPDATE` statements overwrite the cache with the
call's values. -/

/-- One cost-recording operation. -/
inductive CostOp where
  | logCost (activity_id : Nat) (provider model : String) (tokens : Nat)
      (cost : ℚ)
  | updateCost (activity_id : Nat) (tokens : Nat) (cost : ℚ)
      (provider : String)
deriving DecidableEq, Repr

/-- Execute one cost-recording operation against the ledger. -/
def applyCostOp (db : Db) : CostOp → Db
  | .logCost aid p m t c => log_cost_to_db db aid p m t c
  | .updateCost aid t c p => update_activity_cost db aid t c p

/-- Execute a sequence of cost-recording operations. -/
def runCostOps (db : Db) (ops : List CostOp) : Db :=
  ops.foldl applyCostOp db

/-- Authoritative spend for one activity: the sum of its `ai_costs` rows. -/
def costSumFor (db : Db) (aid : Nat) : ℚ :=
  ((db.ai_costs.filter fun r => r.activity_id = aid).map CostRecord.cost).sum

/-- Sum of `tokens_used` over one activity's `ai_costs` rows. -/
def tokenSumFor (db : Db) (aid : Nat) : Nat :=
  ((db.ai_costs.filter fun r => r.activity_id = aid).map
    CostRecord.tokens_used).sum

/-- The activity a cost-recording operation targets. -/
def opAid : CostOp → Nat
  | .logCost aid _ _ _ _ => aid
  | .updateCost aid _ _ _ => aid

/-- The `(tokens, cost)` values a cost-recording operation writes. -/
def opVals : CostOp → Nat × ℚ
  | .logCost _ _ _ t c => (t, c)
  | .updateCost _ t c _ => (t, c)

/-- The values of the last operation in the sequence targeting `aid`. -/
def lastCostFor (aid : Nat) : List CostOp → Option (Nat × ℚ)
  | [] => none
  | op :: ops =>
    match lastCostFor aid ops with
    | some v => some v
    | none => if opAid op = aid then some (opVals op) else none

/-- Each cost-recording operation only appends to `ai_costs`. -/
theorem applyCostOp_appends_ai_costs (db : Db) (op : CostOp) :
    db.ai_costs <+: (applyCostOp db op).ai_costs := by
  cases op with
  | logCost aid p m t c =>
    exact List.prefix_append db.ai_costs _
  | updateCost aid t c p =>
    exact List.prefix_rfl

/-- Over any operation sequence, `ai_costs` only grows by appending. -/
theorem runCostOps_appends_ai_costs (db : Db) (ops : List CostOp) :
    db.ai_costs <+: (runCostOps db ops).ai_costs := by
  induction ops generalizing db with
  | nil => exact List.prefix_rfl
  | cons op ops ih =>
    exact (applyCostOp_appends_ai_costs db op).trans (ih (applyCostOp db op))

/-- After one operation, every activity row carrying the targeted id
holds the operation's values and status `generated`. -/
theorem applyCostOp_sets_cache (db : Db) (op : CostOp) (a : Activity)
    (ha : a ∈ (applyCostOp db op).activities) (hid : a.id = opAid op) :
    a.ai_tokens_used = (opVals op).1 ∧ a.ai_cost = (opVals op).2 ∧
      a.status = "generated" := by
  cases op with
  | logCost aid p m t c =>
    simp only [applyCostOp, log_cost_to_db] at ha
    obtain ⟨x, hx, rfl⟩ := List.mem_map.1 ha
    by_cases hxid : x.id = aid
    · simp [hxid, opVals]
    · simp only [opAid, if_neg hxid] at hid
      exact absurd hid hxid
  | updateCost aid t c p =>
    simp only [applyCostOp, update_activity_cost] at ha
    obtain ⟨x, hx, rfl⟩ := List.mem_map.1 ha
    by_cases hxid : x.id = aid
    · simp [hxid, opVals]
    · simp only [opAid, if_neg hxid] at hid
      exact absurd hid hxid

/-- An operation leaves every activity row with a different id alone. -/
theorem applyCostOp_preserves_other (db : Db) (op : CostOp) (a : Activity)
    (ha : a ∈ (applyCostOp db op).activities) (hid : a.id ≠ opAid op) :
    a ∈ db.activities := by
  cases op with
  | logCost aid p m t c =>
    simp only [applyCostOp, log_cost_to_db] at ha
    obtain ⟨x, hx, rfl⟩ := List.mem_map.1 ha
    by_cases hxid : x.id = aid
    · simp only [if_pos hxid, opAid] at hid ⊢
      exact absurd hxid hid
    · rwa [if_neg hxid]
  | updateCost aid t c p =>
    simp only [applyCostOp, update_activity_cost] at ha
    obtain ⟨x, hx, rfl⟩ := List.mem_map.1 ha
    by_cases hxid : x.id = aid
    · simp only [if_pos hxid, opAid] at hid ⊢
      exact absurd hxid hid
    · rwa [if_neg hxid]

/-- When no operation in the sequence targets `aid`, activity rows with
that id pass through unchanged. -/
theorem runCostOps_preserves_untargeted (aid : Nat) (ops : List CostOp) :
    ∀ db : Db, lastCostFor aid ops = none →
      ∀ a ∈ (runCostOps db ops).activities, a.id = aid →
        a ∈ db.activities := by
  induction ops with
  | nil => intro db _ a ha _; exact ha
  | cons op ops ih =>
    intro db h a ha hid
    have h1 : lastCostFor aid ops = none := by
      cases hl : lastCostFor aid ops with
      | none => rfl
      | some v => simp [lastCostFor, hl] at h
    have h2 : ¬opAid op = aid := by
      intro h2
      simp [lastCostFor, h1, h2] at h
    have hmem : a ∈ (applyCostOp db op).activities :=
      ih (applyCostOp db op) h1 a ha hid
    exact applyCostOp_preserves_other db op a hmem (by rw [hid]; exact fun e => h2 e.symm)

/-- After any operation sequence whose last operation targeting `aid`
wrote `(t, c)`, every activity row with id `aid` caches exactly `(t, c)`. -/
theorem runCostOps_cache_last_write (aid : Nat) (ops : List CostOp) :
    ∀ (db : Db) (t : Nat) (c : ℚ), lastCostFor aid ops = some (t, c) →
      ∀ a ∈ (runCostOps db ops).activities, a.id = aid →
        a.ai_tokens_used = t ∧ a.ai_cost = c ∧ a.status = "generated" := by
  induction ops with
  | nil => intro db t c h; simp [lastCostFor] at h
  | cons op ops ih =>
    intro db t c h a ha hid
    cases hl : lastCostFor aid ops with
    | some v =>
      obtain ⟨vt, vc⟩ := v
      have hv : vt = t ∧ vc = c := by
        simp only [lastCostFor, hl] at h
        simpa using h
      rw [← hv.1, ← hv.2]
      exact ih (applyCostOp db op) vt vc hl a ha hid
    | none =>
      have hop : opAid op = aid := by
        by_cases hop : opAid op = aid
        · exact hop
        · simp [lastCostFor, hl, hop] at h
      have hvals : opVals op = (t, c) := by
        simp only [lastCostFor, hl, if_pos hop] at h
        simpa using h
      have hmem : a ∈ (applyCostOp db op).activities :=
        runCostOps_preserves_untargeted aid ops (applyCostOp db op) hl a ha hid
      have := applyCostOp_sets_cache db op a hmem (by rw [hid, hop])
      rw [hvals] at this
      exact this

/-- A freshly created activity row with id 1 and the schema defaults. -/
def c6Activity : Activity :=
  { id := 1, activity_type := "documentation_generation", source := "api",
    details := "", ai_tokens_used := 0, ai_cost := 0,
    human_time_seconds := 0, status := "pending" }

/-- A ledger holding a single freshly created activity with id 1. -/
def c6Db : Db :=
  { activities := [c6Activity]
    documents := []
    ai_costs := []
    next_activity_id := 2, next_document_id := 1, next_cost_id := 1 }

/-- Two `log_cost_to_db` calls against activity 1, 100 tokens and cost 1
each. -/
def c6Ops : List CostOp :=
  [.logCost 1 "openai" "gpt-3.5-turbo" 100 1,
   .logCost 1 "openai" "gpt-3.5-turbo" 100 1]

/-- C6 (counterexample): after two `log_cost_to_db` calls on the same
activity (100 tokens, cost 1 each), the activity caches the values of the
last call only — 100 tokens, cost 1 — while the sums over its two
appended `ai_costs` rows are 200 tokens and cost 2: the cache does not
equal the sum of the activity's CostRecords. -/
theorem claim_C6_counterexample_cache_not_sum :
    ((runCostOps c6Db c6Ops).activities.map fun a =>
        (a.id, a.ai_tokens_used, a.ai_cost)) = [(1, 100, (1 : ℚ))] ∧
    tokenSumFor (runCostOps c6Db c6Ops) 1 = 200 ∧
    costSumFor (runCostOps c6Db c6Ops) 1 = 2 ∧
    (100 : ℕ) ≠ 200 ∧ (1 : ℚ) ≠ 2 := by
  refine ⟨by decide, by decide, ?_, by decide, by norm_num⟩
  norm_num [costSumFor, runCostOps, applyCostOp, log_cost_to_db, c6Db, c6Ops,
    List.foldl]

/-- C6 (amended): `ai_costs` rows are never updated or deleted — over any
operation sequence the table only grows by appending — and after each
sequence the activity's cached `ai_tokens_used` / `ai_cost` equal the
token and cost arguments of the most recent cost-recording operation
targeting it (with status `generated`), not the sum over its CostRecord
rows. -/
theorem claim_C6_append_only_and_cache_is_last_write (db : Db)
    (ops : List CostOp) (aid t : Nat) (c : ℚ)
    (h : lastCostFor aid ops = some (t, c)) :
    db.ai_costs <+: (runCostOps db ops).ai_costs ∧
    ∀ a ∈ (runCostOps db ops).activities, a.id = aid →
      a.ai_tokens_used = t ∧ a.ai_cost = c ∧ a.status = "generated" :=
  ⟨runCostOps_appends_ai_costs db ops,
   runCostOps_cache_last_write aid ops db t c h⟩

/-- Witness for the amended C6 on the concrete two-call sequence. -/
theorem claim_C6_append_only_and_cache_is_last_write_witness :
    lastCostFor 1 c6Ops = some (100, 1) ∧
    (c6Db.ai_costs <+: (runCostOps c6Db c6Ops).ai_costs ∧
     ∀ a ∈ (runCostOps c6Db c6Ops).activities, a.id = 1 →
       a.ai_tokens_used = 100 ∧ a.ai_cost = 1 ∧ a.status = "generated") :=
  ⟨by decide,
   claim_C6_append_only_and_cache_is_last_write c6Db c6Ops 1 100 1 (by decide)⟩

/-! ## Document generation (`scripts/document_generator.py` and the
`/generate` endpoint of `scripts/api_server.py`)

The upstream OpenAI call is an external collaborator; its outcome — a
successful completion, a raised error, or no configured client — is a
parameter.  Timestamps come from the clock and are a parameter `now`. -/

/-- Model of Python `str.title()` for ASCII text: the first character of
every alphabetic run is upper-cased, the rest lower-cased. -/
def pyTitleAux : Bool → List Char → List Char
  | _, [] => []
  | prevAlpha, c :: cs =>
    if c.isAlpha then
      (if prevAlpha then c.toLower else c.toUpper) :: pyTitleAux true cs
    else
      c :: pyTitleAux false cs

/-- Model of Python `s.title()` for ASCII text. -/
def pyTitle (s : String) : String :=
  String.mk (pyTitleAux false s.data)

/-- The `self.pricing` table with its `.get(model, 0.002)` default
(`document_generator.py` lines 27-33, 119-122). -/
def pricing (model : String) : ℚ :=
  if model = "gpt-3.5-turbo" then 2 / 1000
  else if model = "gpt-3.5-turbo-instruct" then 15 / 10000
  else if model = "gpt-4" then 3 / 100
  else if model = "gpt-4-turbo-preview" then 1 / 100
  else 2 / 1000

/-- `EnhancedDocumentGenerator.calculate_cost`: `(tokens / 1000) *
cost_per_1k`. -/
def calculate_cost (model : String) (tokens : Nat) : ℚ :=
  ((tokens : ℚ) / 1000) * pricing model

/-- The document-type keys of `self.templates`. -/
def templateKeys : List String :=
  ["technical_spec", "api_documentation", "user_manual", "license_readiness"]

/-- Outcome of the upstream text-generation collaborator. -/
inductive Upstream where
  | unavailable
  | failure
  | success (content : String) (tokens : Nat)
deriving DecidableEq, Repr

/-- `true` when the upstream call fails or is unavailable, i.e. when
`generate_document` takes the simulated fallback path. -/
def isFallback : Upstream → Bool
  | .success _ _ => false
  | _ => true

/-- The result dictionary `generate_document` returns. -/
structure GenResult where
  content : String
  tokens : Nat
  cost : ℚ
  model : String
  provider : String
  success : Bool
deriving DecidableEq, Repr

/-- The placeholder body `_generate_simulated` builds
(`document_generator.py` lines 180-203), for the template-normalized
document type. -/
def simulated_content (doc_type context now : String) : String :=
  "# " ++ pyTitle (pyReplace doc_type "_" " ") ++ "\n        \n## Based on: "
    ++ context ++ "\n\n### Document Type: " ++ doc_type
    ++ "\n### Generated: " ++ now
    ++ "\n### Status: Simulated (OpenAI not configured)\n\n"
    ++ "This is a simulated document. To get AI-generated content:\n\n"
    ++ "1. Get an OpenAI API key from https://platform.openai.com/api-keys\n"
    ++ "2. Add to .env file: OPENAI_API_KEY=sk-your-key-here\n"
    ++ "3. Restart the API server\n\n**Example Content Structure:**\n"
    ++ "- Overview\n- Technical specifications\n- Requirements\n"
    ++ "- Integration points\n- Security considerations\n"
    ++ "- Licensing recommendations\n\n"
    ++ "*Enable OpenAI for real AI-generated documentation.*\n"

/-- `EnhancedDocumentGenerator._generate_simulated`
(`document_generator.py` lines 175-213): 800 simulated tokens, cost from
the pricing table, model and provider `"simulated"`, `success = False`. -/
def generate_simulated (model_name doc_type context now : String) :
    GenResult :=
  { content := simulated_content doc_type context now
    tokens := 800
    cost := calculate_cost model_name 800
    model := "simulated"
    provider := "simulated"
    success := false }

/-- `EnhancedDocumentGenerator.generate_document`
(`document_generator.py` lines 124-173): unknown document types fall back
to `technical_spec`; with a configured client and a successful completion
the result carries provider `"openai"`; on an upstream exception or a
missing client it falls back to `_generate_simulated`. -/
def generate_document (model_name doc_type context now : String)
    (up : Upstream) : GenResult :=
  let dt := if doc_type ∈ templateKeys then doc_type else "technical_spec"
  match up with
  | .success content tokens =>
    { content
      tokens
      cost := calculate_cost model_name tokens
      model := model_name
      provider := "openai"
      success := true }
  | _ => generate_simulated model_name dt context now

/-- The JSON body the `/generate` endpoint answers with on success
(`api_server.py` lines 192-205). -/
structure GenerateResponse where
  activity_id : Nat
  document_id : Nat
  filename : String
  content : String
  tokens : Nat
  cost : ℚ
  model : String
  provider : String
  openai_used : Bool
  needs_review : Bool
deriving DecidableEq, Repr

/-- The `/generate` endpoint (`api_server.py` lines 121-214) with the
modules loaded: log the activity, generate, log the cost (which also
flips the activity's status to `generated`), save the document under the
generated filename, and — when `licensing_focus` — stage it for review
and record the review filepath. -/
def generate_docs (db : Db) (model_name doc_type context : String)
    (licensing_focus : Bool) (source now : String) (up : Upstream) :
    GenerateResponse × Db :=
  let r1 := log_activity db "documentation_generation" source ""
  let aid := r1.1
  let db := r1.2
  let result := generate_document model_name doc_type context now up
  let db := log_cost_to_db db aid result.provider result.model result.tokens
    result.cost
  let filename := doc_type ++ "_" ++ toString aid ++ "_" ++ now ++ ".md"
  let r2 := save_document db aid doc_type result.content filename
  let did := r2.1
  let db := r2.2
  let review_path : Option String :=
    if licensing_focus then
      some ("docs/review/" ++ doc_type ++ "_" ++ toString did ++ "_" ++ now
        ++ ".md")
    else none
  let db :=
    match review_path with
    | some rp =>
      { db with
          documents := db.documents.map fun doc =>
            if doc.id = did then { doc with review_filepath := some rp }
            else doc }
    | none => db
  ({ activity_id := aid, document_id := did, filename,
     content := result.content, tokens := result.tokens, cost := result.cost,
     model := result.model, provider := result.provider,
     openai_used := result.provider = "openai",
     needs_review := licensing_focus }, db)

/-- `/generate` always stores a `documents` row whose id the response
reports and whose `draft_content` is the generated (or fallback)
content. -/
theorem generate_docs_saves_draft (db : Db) (mn dt ctx : String) (lf : Bool)
    (src now : String) (up : Upstream) :
    ∃ doc ∈ (generate_docs db mn dt ctx lf src now up).2.documents,
      doc.id = (generate_docs db mn dt ctx lf src now up).1.document_id ∧
      doc.draft_content =
        (generate_docs db mn dt ctx lf src now up).1.content := by
  unfold generate_docs
  dsimp only
  generalize log_cost_to_db (log_activity db "documentation_generation" src "").2
      (log_activity db "documentation_generation" src "").1
      (generate_document mn dt ctx now up).provider
      (generate_document mn dt ctx now up).model
      (generate_document mn dt ctx now up).tokens
      (generate_document mn dt ctx now up).cost = db2
  unfold save_document
  dsimp only
  cases lf
  · exact ⟨_, List.mem_append_right _ (List.mem_singleton_self _), rfl, rfl⟩
  · refine ⟨_, List.mem_map_of_mem _
      (List.mem_append_right _ (List.mem_singleton_self _)), ?_, ?_⟩ <;> simp

/-- `/generate` always leaves an `activities` row whose id the response
reports, with status `generated` (set by `log_cost_to_db`) and the
result's token count cached. -/
theorem generate_docs_activity_generated (db : Db) (mn dt ctx : String)
    (lf : Bool) (src now : String) (up : Upstream) :
    ∃ a ∈ (generate_docs db mn dt ctx lf src now up).2.activities,
      a.id = (generate_docs db mn dt ctx lf src now up).1.activity_id ∧
      a.status = "generated" ∧
      a.ai_tokens_used =
        (generate_docs db mn dt ctx lf src now up).1.tokens := by
  unfold generate_docs log_activity log_cost_to_db save_document
  dsimp only
  cases lf <;>
    exact ⟨_, List.mem_map_of_mem _
      (List.mem_append_right _ (List.mem_singleton_self _)), by simp⟩

/-- The empty ledger right after table creation. -/
def c7Db : Db :=
  { activities := [], documents := [], ai_costs := []
    next_activity_id := 1, next_document_id := 1, next_cost_id := 1 }

/-- C7 (counterexample): with the upstream client unavailable, a
`/generate` request on a fresh ledger does produce a `documents` row —
holding the placeholder content as its draft — contradicting the claim
that a failed generation never produces a Document. -/
theorem claim_C7_counterexample_fallback_still_saves_document :
    ((generate_docs c7Db "gpt-3.5-turbo" "technical_spec" "ctx" false "api"
        "20240101_120000" .unavailable).2.documents.map fun doc =>
          (doc.id, doc.draft_content)) =
      [(1, simulated_content "technical_spec" "ctx" "20240101_120000")] ∧
    (generate_docs c7Db "gpt-3.5-turbo" "technical_spec" "ctx" false "api"
        "20240101_120000" .unavailable).1.provider = "simulated" := by
  constructor <;> rfl

/-- C7 (amended): when the upstream call fails or is unavailable, the
pipeline still produces a Document — its draft is the placeholder
content — and an Activity with status `generated`; the fallback is
distinguishable from a real draft by the sentinel provider value
`"simulated"` (so `openai_used` is false, model is `"simulated"` and the
token count is the fixed 800). -/
theorem claim_C7_fallback_distinguishable_but_document_produced (db : Db)
    (mn dt ctx : String) (lf : Bool) (src now : String) (up : Upstream)
    (h : isFallback up = true) :
    (generate_docs db mn dt ctx lf src now up).1.provider = "simulated" ∧
    (generate_docs db mn dt ctx lf src now up).1.openai_used = false ∧
    (generate_docs db mn dt ctx lf src now up).1.model = "simulated" ∧
    (generate_docs db mn dt ctx lf src now up).1.tokens = 800 ∧
    (∃ doc ∈ (generate_docs db mn dt ctx lf src now up).2.documents,
      doc.id = (generate_docs db mn dt ctx lf src now up).1.document_id ∧
      doc.draft_content =
        (generate_docs db mn dt ctx lf src now up).1.content) ∧
    (∃ a ∈ (generate_docs db mn dt ctx lf src now up).2.activities,
      a.id = (generate_docs db mn dt ctx lf src now up).1.activity_id ∧
      a.status = "generated" ∧
      a.ai_tokens_used =
        (generate_docs db mn dt ctx lf src now up).1.tokens) := by
  cases up with
  | success c t => simp [isFallback] at h
  | unavailable =>
    exact ⟨rfl, rfl, rfl, rfl,
      generate_docs_saves_draft db mn dt ctx lf src now .unavailable,
      generate_docs_activity_generated db mn dt ctx lf src now .unavailable⟩
  | failure =>
    exact ⟨rfl, rfl, rfl, rfl,
      generate_docs_saves_draft db mn dt ctx lf src now .failure,
      generate_docs_activity_generated db mn dt ctx lf src now .failure⟩

/-- Witness for the amended C7 on a fresh ledger with the client
unavailable. -/
theorem claim_C7_fallback_distinguishable_witness :
    isFallback .unavailable = true ∧
    ((generate_docs c7Db "gpt-3.5-turbo" "api_documentation" "ctx" true "api"
        "20240101_120000" .unavailable).1.provider = "simulated" ∧
     (generate_docs c7Db "gpt-3.5-turbo" "api_documentation" "ctx" true "api"
        "20240101_120000" .unavailable).1.openai_used = false ∧
     (generate_docs c7Db "gpt-3.5-turbo" "api_documentation" "ctx" true "api"
        "20240101_120000" .unavailable).1.model = "simulated" ∧
     (generate_docs c7Db "gpt-3.5-turbo" "api_documentation" "ctx" true "api"
        "20240101_120000" .unavailable).1.tokens = 800 ∧
     (∃ doc ∈ (generate_docs c7Db "gpt-3.5-turbo" "api_documentation" "ctx"
          true "api" "20240101_120000" .unavailable).2.documents,
        doc.id = (generate_docs c7Db "gpt-3.5-turbo" "api_documentation" "ctx"
          true "api" "20240101_120000" .unavailable).1.document_id ∧
        doc.draft_content = (generate_docs c7Db "gpt-3.5-turbo"
          "api_documentation" "ctx" true "api" "20240101_120000"
          .unavailable).1.content) ∧
     (∃ a ∈ (generate_docs c7Db "gpt-3.5-turbo" "api_documentation" "ctx"
          true "api" "20240101_120000" .unavailable).2.activities,
        a.id = (generate_docs c7Db "gpt-3.5-turbo" "api_documentation" "ctx"
          true "api" "20240101_120000" .unavailable).1.activity_id ∧
        a.status = "generated" ∧
        a.ai_tokens_used = (generate_docs c7Db "gpt-3.5-turbo"
          "api_documentation" "ctx" true "api" "20240101_120000"
          .unavailable).1.tokens)) :=
  ⟨rfl,
   claim_C7_fallback_distinguishable_but_document_produced c7Db
     "gpt-3.5-turbo" "api_documentation" "ctx" true "api" "20240101_120000"
     .unavailable rfl⟩

/-! ## Licensing preparation (`scripts/review_workflow.py`)

The "remove metadata headers" step of `prepare_for_licensing`
(lines 116-127). -/

/-- The header-stripping step of `prepare_for_licensing`: when the
content starts with `---`, walk the lines with an `in_header` flag; the
first line equal to `---` clears the flag and is skipped, lines while
the flag is set are skipped, the rest are kept; the remainder is joined
and `strip()`ped.  Content not starting with `---` passes through
unchanged. -/
def remove_metadata_header (content : String) : String :=
  if pyStartsWith content "---" then
    let lines := pySplitChar content '\n'
    let folded := lines.foldl
      (fun (st : Bool × List String) line =>
        if line = "---" && st.1 then (false, st.2)
        else if st.1 then st
        else (st.1, st.2 ++ [line]))
      (true, [])
    pyStrip (pyJoin "\n" folded.2)
  else content

/-- Content that does not start with `---` passes through the
header-stripping step unchanged. -/
theorem remove_metadata_header_of_not_start (s : String)
    (h : pyStartsWith s "---" = false) :
    remove_metadata_header s = s := by
  simp [remove_metadata_header, h]

/-- C9 (counterexample): on `"---\n---\nfoo"` the step is not
idempotent — one application removes only the first `---` line, leaving
`"---\nfoo"`, and a second application strips again, yielding `"foo"`. -/
theorem claim_C9_counterexample_not_idempotent :
    remove_metadata_header "---\n---\nfoo" = "---\nfoo" ∧
    remove_metadata_header (remove_metadata_header "---\n---\nfoo") =
      "foo" ∧
    remove_metadata_header (remove_metadata_header "---\n---\nfoo") ≠
      remove_metadata_header "---\n---\nfoo" := by
  decide

/-- C9 (amended): the header-stripping step is idempotent exactly on
content whose once-stripped result does not begin with `---` — which
covers content not starting with `---` (passed through unchanged) and
the single-header review files the workflow writes; when the once-
stripped result still begins with `---`, a second application can strip
further. -/
theorem claim_C9_idempotent_when_stripped_result_headerless (c : String)
    (h : pyStartsWith (remove_metadata_header c) "---" = false) :
    remove_metadata_header (remove_metadata_header c) =
      remove_metadata_header c :=
  remove_metadata_header_of_not_start (remove_metadata_header c) h

/-- Witness for the amended C9 on a review file with one metadata
header. -/
theorem claim_C9_idempotent_witness :
    pyStartsWith
        (remove_metadata_header "---\n# DOCUMENT FOR REVIEW\n---\nbody")
        "---" = false ∧
    remove_metadata_header
        (remove_metadata_header "---\n# DOCUMENT FOR REVIEW\n---\nbody") =
      remove_metadata_header "---\n# DOCUMENT FOR REVIEW\n---\nbody" :=
  ⟨by decide,
   claim_C9_idempotent_when_stripped_result_headerless
     "---\n# DOCUMENT FOR REVIEW\n---\nbody" (by decide)⟩

/-! ## Pattern learning (`scripts/learning_system.py`)

`extract_patterns` diffs two texts with Python `difflib.unified_diff`;
the diff itself is a standard-library collaborator, modelled below by a
longest-common-subsequence line diff emitting the unified-diff line
shapes. -/

/-- Fuel-indexed longest common subsequence of two line lists; fuel
`|a| + |b|` suffices since every recursive call shortens one list. -/
def lcsAux : Nat → List String → List String → List String
  | _, [], _ => []
  | _, _, [] => []
  | 0, _, _ => []
  | fuel + 1, a :: as, b :: bs =>
    if a = b then a :: lcsAux fuel as bs
    else
      let l1 := lcsAux fuel (a :: as) bs
      let l2 := lcsAux fuel as (b :: bs)
      if l2.length ≤ l1.length then l1 else l2

/-- Longest common subsequence of two line lists. -/
def lcs (a b : List String) : List String :=
  lcsAux (a.length + b.length) a b

/-- Split a list at the first occurrence of `c`: the elements before it
and the elements after it. -/
def splitAtFirst (c : String) : List String → List String × List String
  | [] => ([], [])
  | x :: xs =>
    if x = c then ([], xs)
    else
      let r := splitAtFirst c xs
      (x :: r.1, r.2)

/-- Emit unified-diff body lines along a common subsequence: removed
lines prefixed `-`, added lines prefixed `+`, common lines prefixed by
one space — the single-character prefixes of the unified diff format. -/
def emitDiff : List String → List String → List String → List String
  | [], as, bs => as.map ("-" ++ ·) ++ bs.map ("+" ++ ·)
  | c :: cs, as, bs =>
    let ra := splitAtFirst c as
    let rb := splitAtFirst c bs
    ra.1.map ("-" ++ ·) ++ rb.1.map ("+" ++ ·) ++
      ((" " ++ c) :: emitDiff cs ra.2 rb.2)

/-- Models the output line shape of Python `difflib.unified_diff(a, b,
lineterm=<empty>, n=3)` for inputs whose diff fits one hunk: no output
at all when the sequences are equal, otherwise the two file-header lines
(`--- ` and `+++ `), one `@@` hunk header, and the body lines with their
single-character `-` / `+` / space prefixes.  Hunk range numbers and
multi-hunk context trimming are not modelled: no code in this repository
reads them — `extract_patterns` inspects only line prefixes. -/
def unifiedDiff (a b : List String) : List String :=
  if a = b then []
  else "--- " :: "+++ " :: "@@ @@" :: emitDiff (lcs a b) a b

/-- One pattern dictionary emitted by `extract_patterns`. -/
structure Pattern where
  type : String
  examples : List String
  count : Nat
  hash : String
deriving DecidableEq, Repr

/-- Stand-in for `LearningSystem._calculate_hash` (the first ten hex
characters of an md5 digest): an executable fingerprint of the text.
No verified claim inspects fingerprint values, only where they are
stored; the md5 computation itself is not modelled. -/
def calculate_hash (text : String) : String := text

/-- `LearningSystem.extract_patterns` (`learning_system.py` lines
46-90).  Note the prefix tests: a diff line is only collected when it
starts with the two-character `"- "` or `"+ "` (the `ndiff` prefixes),
while `unified_diff` emits one-character `-` / `+` prefixes, so only
changed lines whose own text begins with a space are ever collected. -/
def extract_patterns (original revised : String) : List Pattern :=
  let original_lines := pySplitChar original '\n'
  let revised_lines := pySplitChar revised '\n'
  let diff := unifiedDiff original_lines revised_lines
  let changes : List (String × String) := diff.filterMap fun line =>
    if pyStartsWith line "- " && !pyStartsWith line "---" then
      some ("remove", pyDrop line 2)
    else if pyStartsWith line "+ " && !pyStartsWith line "+++" then
      some ("add", pyDrop line 2)
    else none
  if changes.isEmpty then []
  else
    let removals := changes.filterMap fun c =>
      if c.1 = "remove" then some c.2 else none
    let additions := changes.filterMap fun c =>
      if c.1 = "add" then some c.2 else none
    (if !removals.isEmpty then
      [{ type := "content_removed", examples := removals.take 3,
         count := removals.length,
         hash := calculate_hash (pyJoin "\n" (removals.take 2)) }]
     else []) ++
    (if !additions.isEmpty then
      [{ type := "content_added", examples := additions.take 3,
         count := additions.length,
         hash := calculate_hash (pyJoin "\n" (additions.take 2)) }]
     else [])

/-- C3 (code bug): for `original = "a"`, `revised = "a" ++ newline ++
"b"`, the unified diff holds exactly one added line and no removed
lines, yet `extract_patterns` returns no pattern at all instead of one
`content_added` pattern. -/
theorem claim_C3_pure_addition_yields_no_pattern :
    unifiedDiff (pySplitChar "a" '\n') (pySplitChar "a\nb" '\n') =
      ["--- ", "+++ ", "@@ @@", " a", "+b"] ∧
    ((unifiedDiff (pySplitChar "a" '\n') (pySplitChar "a\nb" '\n')).filter
        fun l => pyStartsWith l "-" && !pyStartsWith l "---") = [] ∧
    extract_patterns "a" "a\nb" = [] := by
  decide

/-- One row of the `learning_patterns` table.  The `correction` column
stores the pattern dictionary JSON-serialized; serialization is
injective on these dictionaries, so the row carries the payload itself
and the `UPDATE ... WHERE correction = ?` test compares payloads. -/
structure LearningRow where
  id : Nat
  pattern_type : String
  context : String
  correction : Pattern
  applied_count : Nat
deriving DecidableEq, Repr

/-- `LearningSystem.apply_learnings` (`learning_system.py` lines
117-163): select up to the ten rows with highest `applied_count` whose
`context` is `LIKE %content_type%`; for each `content_removed` row, for
each stored example occurring in the content, and for each
`content_added` row whose first example is non-empty and absent from the
content, print a flag and bump `applied_count` on every row with the
same correction payload.  `improved_content` is initialized to
`new_content` and never reassigned, and is what the call returns.
Indexing `examples[0]` presumes a non-empty examples list — true of
every row `save_feedback` writes, since `extract_patterns` only emits a
pattern when its change group is non-empty; the theorem below carries
that well-formedness as a hypothesis. -/
def apply_learnings (rows : List LearningRow) (new_content : String)
    (content_type : String) : String × List LearningRow :=
  let selected := ((rows.filter fun r =>
      sqlLike r.context ("%" ++ content_type ++ "%")).mergeSort
        fun a b => b.applied_count ≤ a.applied_count).take 10
  let bump := fun (rs : List LearningRow) (payload : Pattern) =>
    rs.map fun r =>
      if r.correction = payload then
        { r with applied_count := r.applied_count + 1 }
      else r
  let improved_content := new_content
  let rows := selected.foldl
    (fun (rs : List LearningRow) row =>
      if row.pattern_type = "content_removed" then
        row.correction.examples.foldl
          (fun rs2 ex =>
            if pyContains improved_content ex then bump rs2 row.correction
            else rs2)
          rs
      else if row.pattern_type = "content_added" then
        let ex := row.correction.examples.headD ""
        if ex ≠ "" && !pyContains improved_content ex then
          bump rs row.correction
        else rs
      else rs)
    rows
  (improved_content, rows)

/-- C8 (confirmed): for every learned-pattern store whose rows are
well-formed (non-empty examples, as `save_feedback` writes them) and
every content and content tag, `apply_learnings` returns the input
content exactly: matching patterns only flag and bump `applied_count`,
never rewrite the text. -/
theorem claim_C8_apply_learnings_never_rewrites (rows : List LearningRow)
    (new_content content_type : String)
    (_h : (rows.all fun r => !r.correction.examples.isEmpty) = true) :
    (apply_learnings rows new_content content_type).1 = new_content := rfl

/-- A stored `content_removed` pattern row for the C8 witness. -/
def c8RemovedRow : LearningRow :=
  { id := 1, pattern_type := "content_removed"
    context := "Doc type: technical_spec"
    correction := { type := "content_removed", examples := [" old line"],
                    count := 1, hash := calculate_hash " old line" }
    applied_count := 2 }

/-- A stored `content_added` pattern row for the C8 witness. -/
def c8AddedRow : LearningRow :=
  { id := 2, pattern_type := "content_added"
    context := "Doc type: technical_spec"
    correction := { type := "content_added", examples := [" new line"],
                    count := 1, hash := calculate_hash " new line" }
    applied_count := 5 }

/-- Witness for C8 on a store with one pattern of each type: the content
comes back verbatim. -/
theorem claim_C8_apply_learnings_never_rewrites_witness :
    (([c8RemovedRow, c8AddedRow].all fun r =>
        !r.correction.examples.isEmpty) = true) ∧
    (apply_learnings [c8RemovedRow, c8AddedRow]
        "Intro with old line kept" "technical").1 =
      "Intro with old line kept" :=
  ⟨by decide,
   claim_C8_apply_learnings_never_rewrites [c8RemovedRow, c8AddedRow]
     "Intro with old line kept" "technical" (by decide)⟩

end ProductDocumenter
